import Mathlib

/-!
Shallow embedding of the medication reminder dispatch scheduler of
src/services/notificationService.js, together with proofs about the
per-tick dispatch behaviour.

The cron callback installed by scheduleMedicationChecks is modelled as a
pure function of the store snapshot and the current HH:MM minute string:
each tick queries the store for medications having a schedule entry whose
time equals the current minute, and for each such medication either sends
one push notification (for the first matching, untaken entry of a user
with a truthy push token), logs a warning (user present, falsy token), or
does nothing (user missing, entry taken, or no match).
-/

namespace MedReminder

/-- A schedule subdocument of a medication: a time-of-day string "HH:MM"
and a taken flag. The field sid is the stable subdocument identity
(Mongo's subdocument _id), used only to name entries in statements; the
scheduler code never reads it. -/
structure ScheduleEntry where
  sid : Nat
  time : String
  taken : Bool
deriving DecidableEq, Repr

/-- The user fields selected by the scheduler's populate call:
username, expoPushToken, notificationSound. The token and sound are
nullable strings; none models a missing field and some "" an empty one,
so that JavaScript truthiness can be stated exactly. -/
structure UserDoc where
  username : String
  expoPushToken : Option String
  notificationSound : Option String
deriving DecidableEq, Repr

/-- A medication document as read by the scheduler: its _id (mid), the
populated owning user (none when the user no longer exists), name, dosage
amount, and the ordered schedule entries. -/
structure MedicationDoc where
  mid : String
  user : Option UserDoc
  name : String
  amount : String
  schedules : List ScheduleEntry
deriving DecidableEq, Repr

/-- JavaScript truthiness of a nullable string field: null, undefined and
the empty string are falsy, every other string is truthy. -/
def strTruthy : Option String → Bool
  | none => false
  | some s => s != ""

/-- JavaScript String.prototype.toLowerCase, modelled character by
character over the string's underlying character list. -/
def jsToLower (s : String) : String := ⟨s.data.map Char.toLower⟩

/-- JavaScript String.prototype.trim: drop whitespace from both ends of
the string. -/
def jsTrim (s : String) : String :=
  ⟨((s.data.dropWhile Char.isWhitespace).reverse.dropWhile
      Char.isWhitespace).reverse⟩

/-- The sound chosen inside sendPushNotification:
the preference itself when it is truthy, non-blank after trim, and not a
case variant of "default"; otherwise the literal "default". -/
def soundToPlay (userPreferredSound : String) : String :=
  if userPreferredSound ≠ "" ∧ jsTrim userPreferredSound ≠ ""
      ∧ jsToLower userPreferredSound ≠ "default" then
    userPreferredSound
  else
    "default"

/-- The default-parameter behaviour of sendPushNotification's fifth
argument: an omitted userPreferredSound argument is "default". -/
def soundArg (userPreferredSound : Option String) : String :=
  userPreferredSound.getD "default"

/-- The data object attached to each push message by the cron callback:
medicationId, scheduleTime and a type tag. -/
structure MsgData where
  medicationId : String
  scheduleTime : String
  type : String
deriving DecidableEq, Repr

/-- The Expo push message built by sendPushNotification. The JS field
named to is called toAddr here because to is a Lean keyword. -/
structure Message where
  toAddr : String
  sound : String
  title : String
  body : String
  data : MsgData
  channelId : String
deriving DecidableEq, Repr

/-- The argument tuple of one sendPushNotification call. -/
structure SendArgs where
  expoPushToken : String
  title : String
  body : String
  data : MsgData
  userPreferredSound : String
deriving DecidableEq, Repr

/-- The message sendPushNotification constructs from its arguments. -/
def buildMessage (a : SendArgs) : Message :=
  { toAddr := a.expoPushToken
    sound := soundToPlay a.userPreferredSound
    title := a.title
    body := a.body
    data := a.data
    channelId := "default" }

/-- sendPushNotification: validate the token, build the message, hand it
to the transport; returns none (null) when the token is invalid or the
transport fails, and never throws (it is a total function). Tickets are
modelled as opaque strings. -/
def sendPushNotification (isExpoPushToken : String → Bool)
    (transport : Message → Except String (List String)) (a : SendArgs) :
    Option (List String) :=
  if isExpoPushToken a.expoPushToken then
    match transport (buildMessage a) with
    | Except.ok tickets => some tickets
    | Except.error _ => none
  else none

/-- One event observable during a tick: a dispatch attempt (one
sendPushNotification invocation, recorded with the medication id, the
schedule entry it is for, and the call arguments), the no-push-token
warning, or the catch-all cron error log. -/
inductive TickEvent where
  | dispatch (medId : String) (entry : ScheduleEntry) (args : SendArgs)
  | warnNoToken (username : String) (medName : String)
  | cronError (msg : String)
deriving DecidableEq, Repr

/-- JavaScript fallback med.user.notificationSound with default:
the stored sound when truthy, otherwise the string "default". -/
def jsOrDefault : Option String → String
  | none => "default"
  | some s => if s ≠ "" then s else "default"

/-- The sendPushNotification arguments the cron callback passes for a due
medication and its user at the current minute. -/
def mkArgs (m : MedicationDoc) (u : UserDoc) (currentTime : String) : SendArgs :=
  { expoPushToken := u.expoPushToken.getD ""
    title := "💊 Medication Reminder!"
    body := "Time to take your " ++ m.name ++ " (" ++ m.amount ++ ")."
    data := { medicationId := m.mid
              scheduleTime := currentTime
              type := "medicationReminder" }
    userPreferredSound := jsOrDefault u.notificationSound }

/-- The loop body of the cron callback for one medication of the query
result: with a truthy token, dispatch for the first schedule entry whose
time equals the current minute when that entry is untaken; with a present
user but falsy token, log a warning; otherwise do nothing. -/
def processMed (currentTime : String) (med : MedicationDoc) : List TickEvent :=
  match med.user with
  | some u =>
    if strTruthy u.expoPushToken then
      match med.schedules.find? (fun s => s.time == currentTime) with
      | some e =>
        if !e.taken then [TickEvent.dispatch med.mid e (mkArgs med u currentTime)]
        else []
      | none => []
    else [TickEvent.warnNoToken u.username med.name]
  | none => []

/-- The store query of a tick: all medications having at least one
schedule entry whose time equals the current minute. -/
def medicationsDue (store : List MedicationDoc) (currentTime : String) :
    List MedicationDoc :=
  store.filter (fun m => m.schedules.any (fun s => s.time == currentTime))

/-- The try/catch body of the cron callback, given the outcome of the
store query: a failed query is caught and logged, ending the tick with
no dispatches; a successful query is processed medication by medication. -/
def runCronTick (queryResult : Except String (List MedicationDoc))
    (currentTime : String) : List TickEvent :=
  match queryResult with
  | Except.error e => [TickEvent.cronError e]
  | Except.ok meds => meds.flatMap (processMed currentTime)

/-- One tick of the scheduler against a store snapshot at the given
minute. -/
def tick (store : List MedicationDoc) (currentTime : String) : List TickEvent :=
  runCronTick (Except.ok (medicationsDue store currentTime)) currentTime

/-- A full pass of the cron callback, with the store it leaves behind:
the callback performs no store writes (it only finds and reads), so the
store component is the input store. -/
def runTickPass (store : List MedicationDoc) (currentTime : String) :
    List MedicationDoc × List TickEvent :=
  (store, tick store currentTime)

/-- The delivery phase: each dispatch event of a tick is handed to
sendPushNotification with its recorded arguments; non-dispatch events
send nothing. -/
def deliver (isExpoPushToken : String → Bool)
    (transport : Message → Except String (List String))
    (evs : List TickEvent) : List (TickEvent × Option (List String)) :=
  evs.map (fun ev =>
    match ev with
    | TickEvent.dispatch _ _ a =>
      (ev, sendPushNotification isExpoPushToken transport a)
    | _ => (ev, none))

/-- Recognise a dispatch event for the given medication id. -/
def isDispatchForMed (mid : String) : TickEvent → Bool
  | TickEvent.dispatch m _ _ => m == mid
  | _ => false

/-- Recognise a dispatch event for the given medication id and schedule
entry id. -/
def isDispatchForEntry (mid : String) (eid : Nat) : TickEvent → Bool
  | TickEvent.dispatch m e _ => m == mid && e.sid == eid
  | _ => false

/-- The sound-resolution rule as worded by the amended claim: the stored
preference when it is set, non-blank after trimming and not a case
variant of "default"; otherwise the literal "default". Stated over the
raw stored field, to be compared with the composed code path. -/
def expectedSound : Option String → String
  | none => "default"
  | some p =>
    if jsTrim p ≠ "" ∧ jsToLower p ≠ "default" then p else "default"

/-- Sample user with token and a custom sound preference. -/
def tokAlice : UserDoc :=
  { username := "alice"
    expoPushToken := some "ExponentPushToken[abc]"
    notificationSound := some "chime.mp3" }

/-- Sample medication with one 08:00 entry, untaken. -/
def aspirin : MedicationDoc :=
  { mid := "m1"
    user := some tokAlice
    name := "Aspirin"
    amount := "500mg"
    schedules := [⟨0, "08:00", false⟩] }

/-- Sample medication with two untaken entries both at 08:00. -/
def aspirinTwice : MedicationDoc :=
  { mid := "m2"
    user := some tokAlice
    name := "Aspirin"
    amount := "500mg"
    schedules := [⟨0, "08:00", false⟩, ⟨1, "08:00", false⟩] }

/-- Sample user whose stored sound preference is the non-empty string
DEFAULT, an upper-case variant of the canonical value. -/
def bob : UserDoc :=
  { username := "bob"
    expoPushToken := some "ExponentPushToken[xyz]"
    notificationSound := some "DEFAULT" }

/-- Sample medication owned by bob, one 09:30 entry. -/
def ibuprofen : MedicationDoc :=
  { mid := "m3"
    user := some bob
    name := "Ibuprofen"
    amount := "200mg"
    schedules := [⟨0, "09:30", false⟩] }

/-- Sample user with no push token at all. -/
def carol : UserDoc :=
  { username := "carol"
    expoPushToken := none
    notificationSound := none }

/-- Sample medication owned by carol, one 10:00 entry. -/
def vitamin : MedicationDoc :=
  { mid := "m4"
    user := some carol
    name := "VitaminD"
    amount := "1000IU"
    schedules := [⟨0, "10:00", false⟩] }

/-- Checker for the C4 counterexample: every dispatch of a tick carries
a message whose title differs from the bare literal and whose payload
carries the extra type field. -/
def titleTypeCheck : TickEvent → Bool
  | TickEvent.dispatch _ _ a =>
    ((buildMessage a).title != "Medication Reminder!")
      && ((buildMessage a).data.type == "medicationReminder")
  | _ => true

/-- Checker for the C5 counterexample: every dispatch of a tick carries
a message whose sound field is the literal "default". -/
def soundVerbatimCheck : TickEvent → Bool
  | TickEvent.dispatch _ _ a => (buildMessage a).sound == "default"
  | _ => true

/-- Case analysis of the loop body: it yields nothing, exactly the
dispatch of the first matching untaken entry, or exactly the warning for
a present user with a falsy push token. -/
theorem processMed_cases (currentTime : String) (m : MedicationDoc) :
    processMed currentTime m = []
    ∨ (∃ u e, m.user = some u ∧ strTruthy u.expoPushToken = true
        ∧ m.schedules.find? (fun s => s.time == currentTime) = some e
        ∧ e.taken = false
        ∧ processMed currentTime m
            = [TickEvent.dispatch m.mid e (mkArgs m u currentTime)])
    ∨ (∃ u, m.user = some u ∧ strTruthy u.expoPushToken = false
        ∧ processMed currentTime m
            = [TickEvent.warnNoToken u.username m.name]) := by
  cases hu : m.user with
  | none => exact Or.inl (by simp [processMed, hu])
  | some u =>
    cases ht : strTruthy u.expoPushToken with
    | false =>
      exact Or.inr (Or.inr ⟨u, rfl, ht, by simp [processMed, hu, ht]⟩)
    | true =>
      cases hf : m.schedules.find? (fun s => s.time == currentTime) with
      | none => exact Or.inl (by simp [processMed, hu, ht, hf])
      | some e =>
        cases htk : e.taken with
        | true => exact Or.inl (by simp [processMed, hu, ht, hf, htk])
        | false =>
          exact Or.inr (Or.inl ⟨u, e, rfl, ht, rfl, htk,
            by simp [processMed, hu, ht, hf, htk]⟩)

/-- The loop body emits at most one event per medication. -/
theorem length_processMed_le_one (currentTime : String) (m : MedicationDoc) :
    (processMed currentTime m).length ≤ 1 := by
  rcases processMed_cases currentTime m with h | ⟨u, e, _, _, _, _, h⟩ | ⟨u, _, _, h⟩ <;>
    rw [h] <;> simp

/-- A dispatch event emitted for a medication names that medication's id,
its first schedule entry matching the current minute (which is untaken),
and the exact sendPushNotification arguments of the cron callback. -/
theorem mem_processMed_dispatch {currentTime : String} {m : MedicationDoc}
    {mid : String} {e : ScheduleEntry} {a : SendArgs}
    (h : TickEvent.dispatch mid e a ∈ processMed currentTime m) :
    mid = m.mid
    ∧ ∃ u, m.user = some u ∧ strTruthy u.expoPushToken = true
        ∧ m.schedules.find? (fun s => s.time == currentTime) = some e
        ∧ e.taken = false ∧ a = mkArgs m u currentTime := by
  rcases processMed_cases currentTime m with
    h0 | ⟨u, e', hu, ht, hf, htk, he⟩ | ⟨u, hu, ht, he⟩
  · rw [h0] at h; cases h
  · rw [he] at h
    have heq := List.mem_singleton.mp h
    cases heq
    exact ⟨rfl, u, hu, ht, hf, htk, rfl⟩
  · rw [he] at h
    have heq := List.mem_singleton.mp h
    exact TickEvent.noConfusion heq

/-- Membership in a tick's event list, unfolded to the query filter and
the per-medication loop body. -/
theorem mem_tick {ev : TickEvent} {s : List MedicationDoc} {now : String} :
    ev ∈ tick s now
      ↔ ∃ m, m ∈ s ∧ m.schedules.any (fun x => x.time == now) = true
          ∧ ev ∈ processMed now m := by
  constructor
  · intro h
    obtain ⟨m, hm, hev⟩ := List.mem_flatMap.mp h
    exact ⟨m, (List.mem_filter.mp hm).1, (List.mem_filter.mp hm).2, hev⟩
  · intro ⟨m, hm, hdue, hev⟩
    exact List.mem_flatMap.mpr ⟨m, List.mem_filter.mpr ⟨hm, hdue⟩, hev⟩

/-- Every dispatch of a tick comes from a store medication with a truthy
push token, is for the first schedule entry matching the minute, that
entry is untaken, and the call arguments are the cron callback's. -/
theorem tick_dispatch_elim {s : List MedicationDoc} {now mid : String}
    {e : ScheduleEntry} {a : SendArgs}
    (h : TickEvent.dispatch mid e a ∈ tick s now) :
    ∃ m u, m ∈ s ∧ m.mid = mid ∧ m.user = some u
      ∧ strTruthy u.expoPushToken = true
      ∧ m.schedules.find? (fun x => x.time == now) = some e
      ∧ e.taken = false ∧ a = mkArgs m u now := by
  obtain ⟨m, hm, hdue, hmem⟩ := mem_tick.mp h
  obtain ⟨hmid, u, hu, ht, hf, htk, ha⟩ := mem_processMed_dispatch hmem
  exact ⟨m, u, hm, hmid.symm, hu, ht, hf, htk, ha⟩

/-- countP of a flatMap vanishes when it vanishes on every piece. -/
theorem countP_flatMap_zero {α β : Type} (l : List α) (f : α → List β)
    (p : β → Bool) (h : ∀ x ∈ l, (f x).countP p = 0) :
    (l.flatMap f).countP p = 0 := by
  induction l with
  | nil => simp
  | cons x l ih =>
    rw [List.flatMap_cons, List.countP_append, h x (List.mem_cons_self x l),
      ih (fun y hy => h y (List.mem_cons_of_mem x hy))]

/-- A dispatch event of the loop body for a medication other than mid is
never counted by the per-medication dispatch predicate. -/
theorem countP_processMed_med_ne (currentTime : String) (x : MedicationDoc)
    (mid : String) (hx : x.mid ≠ mid) :
    (processMed currentTime x).countP (isDispatchForMed mid) = 0 := by
  rcases processMed_cases currentTime x with h | ⟨u, e, _, _, _, _, h⟩ | ⟨u, _, _, h⟩ <;>
    rw [h] <;> simp [isDispatchForMed, List.countP_cons, hx]

/-- A dispatch event of the loop body for a medication other than mid is
never counted by the per-entry dispatch predicate either. -/
theorem countP_processMed_entry_ne (currentTime : String) (x : MedicationDoc)
    (mid : String) (eid : Nat) (hx : x.mid ≠ mid) :
    (processMed currentTime x).countP (isDispatchForEntry mid eid) = 0 := by
  rcases processMed_cases currentTime x with h | ⟨u, e, _, _, _, _, h⟩ | ⟨u, _, _, h⟩ <;>
    rw [h] <;> simp [isDispatchForEntry, List.countP_cons, hx]

/-- countP of the per-medication loop over a list with pairwise distinct
medication ids is at most one, when only medications with id mid can be
counted at all. -/
theorem countP_flatMap_le_one (l : List MedicationDoc) (now mid : String)
    (p : TickEvent → Bool)
    (hnd : (l.map (fun x => x.mid)).Nodup)
    (hkey : ∀ x, x.mid ≠ mid → (processMed now x).countP p = 0) :
    (l.flatMap (processMed now)).countP p ≤ 1 := by
  induction l with
  | nil => simp
  | cons x l ih =>
    rw [List.flatMap_cons, List.countP_append]
    rw [List.map_cons, List.nodup_cons] at hnd
    by_cases hx : x.mid = mid
    · have hz : (l.flatMap (processMed now)).countP p = 0 := by
        apply countP_flatMap_zero
        intro y hy
        apply hkey
        intro hymid
        exact hnd.1 (List.mem_map.mpr ⟨y, hy, by rw [hymid, hx]⟩)
      have hle : (processMed now x).countP p ≤ 1 :=
        le_trans (List.countP_le_length p) (length_processMed_le_one now x)
      omega
    · rw [hkey x hx]
      simpa using ih hnd.2

/-- countP of the per-medication loop over a list with pairwise distinct
medication ids is exactly one, when the list holds one medication whose
own events count exactly once and only its id can be counted. -/
theorem countP_flatMap_eq_one (l : List MedicationDoc) (now mid : String)
    (p : TickEvent → Bool)
    (hnd : (l.map (fun x => x.mid)).Nodup)
    (m : MedicationDoc) (hm : m ∈ l) (hmid : m.mid = mid)
    (hone : (processMed now m).countP p = 1)
    (hkey : ∀ x, x.mid ≠ mid → (processMed now x).countP p = 0) :
    (l.flatMap (processMed now)).countP p = 1 := by
  induction l with
  | nil => cases hm
  | cons x l ih =>
    rw [List.flatMap_cons, List.countP_append]
    rw [List.map_cons, List.nodup_cons] at hnd
    rcases List.mem_cons.mp hm with rfl | hm'
    · rw [hone]
      have hz : (l.flatMap (processMed now)).countP p = 0 := by
        apply countP_flatMap_zero
        intro y hy
        apply hkey
        intro hymid
        exact hnd.1 (List.mem_map.mpr ⟨y, hy, by rw [hymid, ← hmid]⟩)
      rw [hz]
    · have hx : x.mid ≠ mid := by
        intro hxe
        exact hnd.1 (List.mem_map.mpr ⟨m, hm', by rw [hmid, hxe]⟩)
      rw [hkey x hx, ih hnd.2 hm']

/-- The medication ids of the due query keep the store's Nodup. -/
theorem nodup_medicationsDue {s : List MedicationDoc} {now : String}
    (hnd : (s.map (fun x => x.mid)).Nodup) :
    ((medicationsDue s now).map (fun x => x.mid)).Nodup :=
  List.Nodup.sublist
    (List.Sublist.map (fun x => x.mid) (List.filter_sublist s)) hnd

/-- The composed sound path of a dispatch, the call-site JavaScript
fallback followed by the resolution inside sendPushNotification, agrees
with the one-step resolution rule over the raw stored field. -/
theorem soundToPlay_jsOrDefault (o : Option String) :
    soundToPlay (jsOrDefault o) = expectedSound o := by
  cases o with
  | none => decide
  | some p =>
    by_cases hp : p = ""
    · subst hp; decide
    · show soundToPlay (if p ≠ "" then p else "default") = expectedSound (some p)
      rw [if_pos hp]
      show soundToPlay p
        = if jsTrim p ≠ "" ∧ jsToLower p ≠ "default" then p else "default"
      by_cases hA : jsTrim p ≠ "" ∧ jsToLower p ≠ "default"
      · rw [if_pos hA]
        exact if_pos ⟨hp, hA.1, hA.2⟩
      · rw [if_neg hA]
        exact if_neg (fun h => hA ⟨h.2.1, h.2.2⟩)

/-- Claim C1, counterexample: the code keeps no dispatch history, so two
ticks in the same minute over an unchanged store dispatch the same
schedule entry twice, refuting the claimed at-most-one bound per entry
per minute under repeated ticks. -/
theorem c1_counterexample :
    ¬ ((tick [aspirin] "08:00" ++ tick [aspirin] "08:00").countP
        (isDispatchForEntry "m1" 0) ≤ 1) := by decide

/-- Claim C1 as amended: no dispatch-history check exists; within one
tick at most one dispatch occurs per schedule entry of a store with
pairwise distinct medication ids, and a repeated tick in the same minute
with the store unchanged simply doubles every entry's dispatch count. -/
theorem c1_single_tick_bound_no_dedup :
    (∀ (s : List MedicationDoc) (now mid : String) (eid : Nat),
        (s.map (fun x => x.mid)).Nodup →
        (tick s now).countP (isDispatchForEntry mid eid) ≤ 1)
    ∧ (∀ (s : List MedicationDoc) (now mid : String) (eid : Nat),
        (tick s now ++ tick s now).countP (isDispatchForEntry mid eid)
          = 2 * (tick s now).countP (isDispatchForEntry mid eid)) := by
  constructor
  · intro s now mid eid hnd
    show ((medicationsDue s now).flatMap (processMed now)).countP _ ≤ 1
    exact countP_flatMap_le_one _ now mid _ (nodup_medicationsDue hnd)
      (fun x hx => countP_processMed_entry_ne now x mid eid hx)
  · intro s now mid eid
    rw [List.countP_append]
    omega

/-- Witness for the amended C1 at the one-medication scenario store. -/
theorem c1_witness :
    ([aspirin].map (fun x => x.mid)).Nodup
    ∧ (tick [aspirin] "08:00").countP (isDispatchForEntry "m1" 0) ≤ 1 :=
  ⟨by decide,
   c1_single_tick_bound_no_dedup.1 [aspirin] "08:00" "m1" 0 (by decide)⟩

/-- Claim C2, counterexample: a medication with two untaken entries both
due at 08:00, owned by a user with a push token, gets no dispatch for
its second due entry: only the first matching entry is dispatched. -/
theorem c2_counterexample :
    (⟨1, "08:00", false⟩ : ScheduleEntry) ∈ aspirinTwice.schedules
    ∧ aspirinTwice.user = some tokAlice
    ∧ strTruthy tokAlice.expoPushToken = true
    ∧ (tick [aspirinTwice] "08:00").countP (isDispatchForEntry "m2" 1) = 0 := by
  decide

/-- Claim C2 as amended: on a tick at minute now, a medication of the
store (with pairwise distinct medication ids) whose owning user exists
with a truthy push token and whose first schedule entry matching now is
untaken gets exactly one dispatch that tick, and it is for that first
matching entry with the cron callback's arguments. -/
theorem c2_first_match_exactly_one (s : List MedicationDoc) (now : String)
    (m : MedicationDoc) (u : UserDoc) (e : ScheduleEntry)
    (hm : m ∈ s) (hnd : (s.map (fun x => x.mid)).Nodup)
    (hu : m.user = some u) (ht : strTruthy u.expoPushToken = true)
    (hf : m.schedules.find? (fun x => x.time == now) = some e)
    (hnt : e.taken = false) :
    (tick s now).countP (isDispatchForMed m.mid) = 1
    ∧ TickEvent.dispatch m.mid e (mkArgs m u now) ∈ tick s now := by
  have hpm : processMed now m
      = [TickEvent.dispatch m.mid e (mkArgs m u now)] := by
    simp [processMed, hu, ht, hf, hnt]
  have hme : e ∈ m.schedules := List.mem_of_find?_eq_some hf
  have hpe := @List.find?_some _ _ _ _ hf
  have hdue : m.schedules.any (fun x => x.time == now) = true :=
    List.any_eq_true.mpr ⟨e, hme, hpe⟩
  have hmem : m ∈ medicationsDue s now := List.mem_filter.mpr ⟨hm, hdue⟩
  constructor
  · show ((medicationsDue s now).flatMap (processMed now)).countP _ = 1
    apply countP_flatMap_eq_one _ now m.mid _ (nodup_medicationsDue hnd) m hmem rfl
    · rw [hpm]
      simp [isDispatchForMed, List.countP_cons]
    · exact fun x hx => countP_processMed_med_ne now x m.mid hx
  · exact mem_tick.mpr ⟨m, hm, hdue, by rw [hpm]; exact List.mem_singleton.mpr rfl⟩

/-- Witness for the amended C2 at the one-medication scenario store. -/
theorem c2_witness :
    (tick [aspirin] "08:00").countP (isDispatchForMed "m1") = 1
    ∧ TickEvent.dispatch "m1" ⟨0, "08:00", false⟩
        (mkArgs aspirin tokAlice "08:00") ∈ tick [aspirin] "08:00" :=
  c2_first_match_exactly_one [aspirin] "08:00" aspirin tokAlice
    ⟨0, "08:00", false⟩ (by decide) (by decide) rfl (by decide) (by decide) rfl

/-- Claim C3: every dispatch of a tick is for an entry whose taken flag
is false; a taken schedule entry is never dispatched. -/
theorem c3_taken_never_dispatched (s : List MedicationDoc) (now mid : String)
    (e : ScheduleEntry) (a : SendArgs)
    (h : TickEvent.dispatch mid e a ∈ tick s now) : e.taken = false := by
  obtain ⟨m, u, _, _, _, _, _, htk, _⟩ := tick_dispatch_elim h
  exact htk

/-- Witness for C3 at the one-medication scenario store. -/
theorem c3_witness : (⟨0, "08:00", false⟩ : ScheduleEntry).taken = false :=
  c3_taken_never_dispatched [aspirin] "08:00" "m1" ⟨0, "08:00", false⟩
    (mkArgs aspirin tokAlice "08:00") (by decide)

/-- Claim C4, counterexample: the scenario tick issues exactly one
dispatch, and its message title is not the bare literal (the code
prepends a pill emoji) while its payload carries a third field type, so
the claimed title and exact two-field payload are refuted. -/
theorem c4_counterexample :
    (tick [aspirin] "08:00").countP (isDispatchForMed "m1") = 1
    ∧ (tick [aspirin] "08:00").all titleTypeCheck = true := by decide

/-- Claim C4 as amended: every dispatched message has title exactly
"💊 Medication Reminder!", body exactly "Time to take your {name}
({amount})." for the medication's name and amount, payload exactly
medicationId, scheduleTime plus the extra field type set to
"medicationReminder", and channelId "default". -/
theorem c4_message_fields (s : List MedicationDoc) (now mid : String)
    (e : ScheduleEntry) (a : SendArgs)
    (h : TickEvent.dispatch mid e a ∈ tick s now) :
    ∃ m, m ∈ s ∧ m.mid = mid
      ∧ (buildMessage a).title = "💊 Medication Reminder!"
      ∧ (buildMessage a).body
          = "Time to take your " ++ m.name ++ " (" ++ m.amount ++ ")."
      ∧ (buildMessage a).data
          = { medicationId := m.mid, scheduleTime := now,
              type := "medicationReminder" }
      ∧ (buildMessage a).channelId = "default" := by
  obtain ⟨m, u, hm, hmid, hu, ht, hf, htk, ha⟩ := tick_dispatch_elim h
  subst ha
  exact ⟨m, hm, hmid, rfl, rfl, rfl, rfl⟩

/-- Witness for the amended C4 at the one-medication scenario store. -/
theorem c4_witness :
    ∃ m, m ∈ [aspirin] ∧ m.mid = "m1"
      ∧ (buildMessage (mkArgs aspirin tokAlice "08:00")).title
          = "💊 Medication Reminder!"
      ∧ (buildMessage (mkArgs aspirin tokAlice "08:00")).body
          = "Time to take your " ++ m.name ++ " (" ++ m.amount ++ ")."
      ∧ (buildMessage (mkArgs aspirin tokAlice "08:00")).data
          = { medicationId := m.mid, scheduleTime := "08:00",
              type := "medicationReminder" }
      ∧ (buildMessage (mkArgs aspirin tokAlice "08:00")).channelId
          = "default" :=
  c4_message_fields [aspirin] "08:00" "m1" ⟨0, "08:00", false⟩
    (mkArgs aspirin tokAlice "08:00") (by decide)

/-- Claim C5, counterexample: bob's stored sound preference is the set,
non-empty string "DEFAULT", yet the dispatched message's sound field is
the lower-case literal "default", not the stored preference. -/
theorem c5_counterexample :
    bob.notificationSound = some "DEFAULT"
    ∧ ("DEFAULT" : String) ≠ ""
    ∧ (tick [ibuprofen] "09:30").countP (isDispatchForMed "m3") = 1
    ∧ (tick [ibuprofen] "09:30").all soundVerbatimCheck = true
    ∧ ("default" : String) ≠ "DEFAULT" := by decide

/-- Claim C5 as amended: for every dispatch, the message's sound field is
the owning user's stored preference when that preference is set,
non-blank after trimming and not a case variant of "default", and the
literal "default" otherwise (in particular when unset or empty). -/
theorem c5_sound_resolution (s : List MedicationDoc) (now mid : String)
    (e : ScheduleEntry) (a : SendArgs)
    (h : TickEvent.dispatch mid e a ∈ tick s now) :
    ∃ m u, m ∈ s ∧ m.user = some u
      ∧ (buildMessage a).sound = expectedSound u.notificationSound := by
  obtain ⟨m, u, hm, hmid, hu, ht, hf, htk, ha⟩ := tick_dispatch_elim h
  subst ha
  exact ⟨m, u, hm, hu, soundToPlay_jsOrDefault u.notificationSound⟩

/-- Witness for the amended C5 at the one-medication scenario store. -/
theorem c5_witness :
    ∃ m u, m ∈ [aspirin] ∧ m.user = some u
      ∧ (buildMessage (mkArgs aspirin tokAlice "08:00")).sound
          = expectedSound u.notificationSound :=
  c5_sound_resolution [aspirin] "08:00" "m1" ⟨0, "08:00", false⟩
    (mkArgs aspirin tokAlice "08:00") (by decide)

/-- Claim C6: a due medication whose user exists but has a falsy push
token produces exactly the warning log and nothing else: the warning is
among the tick's events and no dispatch for that medication occurs
anywhere in the tick (ids pairwise distinct); no dispatch-history record
exists in the code at all, so none is created. -/
theorem c6_no_token_warn_only (s : List MedicationDoc) (now : String)
    (m : MedicationDoc) (u : UserDoc)
    (hm : m ∈ s) (hnd : (s.map (fun x => x.mid)).Nodup)
    (hdue : m.schedules.any (fun x => x.time == now) = true)
    (hu : m.user = some u) (ht : strTruthy u.expoPushToken = false) :
    processMed now m = [TickEvent.warnNoToken u.username m.name]
    ∧ TickEvent.warnNoToken u.username m.name ∈ tick s now
    ∧ (tick s now).countP (isDispatchForMed m.mid) = 0 := by
  have hpm : processMed now m = [TickEvent.warnNoToken u.username m.name] := by
    simp [processMed, hu, ht]
  refine ⟨hpm, ?_, ?_⟩
  · exact mem_tick.mpr ⟨m, hm, hdue, by rw [hpm]; exact List.mem_singleton.mpr rfl⟩
  · show ((medicationsDue s now).flatMap (processMed now)).countP _ = 0
    apply countP_flatMap_zero
    intro y hy
    by_cases hxy : y.mid = m.mid
    · have hym : y = m :=
        List.inj_on_of_nodup_map hnd (List.mem_filter.mp hy).1 hm hxy
      rw [hym, hpm]
      simp [isDispatchForMed, List.countP_cons]
    · exact countP_processMed_med_ne now y m.mid hxy

/-- Witness for C6 at the no-token scenario store. -/
theorem c6_witness :
    processMed "10:00" vitamin = [TickEvent.warnNoToken "carol" "VitaminD"]
    ∧ TickEvent.warnNoToken "carol" "VitaminD" ∈ tick [vitamin] "10:00"
    ∧ (tick [vitamin] "10:00").countP (isDispatchForMed "m4") = 0 :=
  c6_no_token_warn_only [vitamin] "10:00" vitamin carol
    (by decide) (by decide) (by decide) rfl rfl

/-- Claim C7: failures are isolated and never escape: a failed store
query yields exactly the caught error log and no dispatches, a transport
failure makes sendPushNotification return none (null) instead of
throwing, and the delivery phase hands every event of a tick to the
notifier regardless of the transport's outcomes on other entries. -/
theorem c7_failure_isolation :
    (∀ (e now : String),
        runCronTick (Except.error e) now = [TickEvent.cronError e])
    ∧ (∀ (isTok : String → Bool)
        (transport : Message → Except String (List String))
        (a : SendArgs) (msg : String),
        transport (buildMessage a) = Except.error msg →
        sendPushNotification isTok transport a = none)
    ∧ (∀ (isTok : String → Bool)
        (transport : Message → Except String (List String))
        (evs : List TickEvent),
        (deliver isTok transport evs).map Prod.fst = evs) := by
  refine ⟨fun e now => rfl, ?_, ?_⟩
  · intro isTok transport a msg h
    unfold sendPushNotification
    by_cases hi : isTok a.expoPushToken
    · rw [if_pos hi, h]
    · rw [if_neg hi]
  · intro isTok transport evs
    induction evs with
    | nil => rfl
    | cons ev evs ih =>
      cases ev <;> simp only [deliver, List.map_cons] at ih ⊢ <;>
        rw [ih]

/-- Witness for C7 at concrete failing query and transport. -/
theorem c7_witness :
    runCronTick (Except.error "db down") "08:00"
      = [TickEvent.cronError "db down"]
    ∧ sendPushNotification (fun _ => true) (fun _ => Except.error "boom")
        (mkArgs aspirin tokAlice "08:00") = none
    ∧ (deliver (fun _ => true) (fun _ => Except.error "boom")
        (tick [aspirin] "08:00")).map Prod.fst = tick [aspirin] "08:00" :=
  ⟨c7_failure_isolation.1 "db down" "08:00",
   c7_failure_isolation.2.1 _ _ _ "boom" rfl,
   c7_failure_isolation.2.2 _ _ _⟩

/-- Claim C8: a tick is a pure read of the store: the pass leaves every
medication, every schedule entry with its taken flag, and every user
exactly as they were; the cron callback contains no store write. -/
theorem c8_tick_store_unchanged (s : List MedicationDoc) (now : String) :
    (runTickPass s now).1 = s := rfl

/-- Claim C9: each medication triggers at most one notifier invocation
per tick (ids pairwise distinct), and every dispatch is for the first
schedule entry of its medication whose time matches the current minute. -/
theorem c9_per_med_first_match :
    (∀ (s : List MedicationDoc) (now mid : String) (e : ScheduleEntry)
        (a : SendArgs),
        TickEvent.dispatch mid e a ∈ tick s now →
        ∃ m, m ∈ s ∧ m.mid = mid
          ∧ m.schedules.find? (fun x => x.time == now) = some e)
    ∧ (∀ (s : List MedicationDoc) (now mid : String),
        (s.map (fun x => x.mid)).Nodup →
        (tick s now).countP (isDispatchForMed mid) ≤ 1) := by
  constructor
  · intro s now mid e a h
    obtain ⟨m, u, hm, hmid, hu, ht, hf, htk, ha⟩ := tick_dispatch_elim h
    exact ⟨m, hm, hmid, hf⟩
  · intro s now mid hnd
    show ((medicationsDue s now).flatMap (processMed now)).countP _ ≤ 1
    exact countP_flatMap_le_one _ now mid _ (nodup_medicationsDue hnd)
      (fun x hx => countP_processMed_med_ne now x mid hx)

/-- Witness for C9 at the one-medication scenario store. -/
theorem c9_witness :
    (∃ m, m ∈ [aspirin] ∧ m.mid = "m1"
      ∧ m.schedules.find? (fun x => x.time == "08:00")
          = some ⟨0, "08:00", false⟩)
    ∧ (tick [aspirin] "08:00").countP (isDispatchForMed "m1") ≤ 1 :=
  ⟨c9_per_med_first_match.1 [aspirin] "08:00" "m1" ⟨0, "08:00", false⟩
      (mkArgs aspirin tokAlice "08:00") (by decide),
   c9_per_med_first_match.2 [aspirin] "08:00" "m1" (by decide)⟩

/-- Claim C10: sendPushNotification resolves the sound to the literal
"default" when its preference argument is omitted, empty, whitespace-only
or any case variant of "default", and passes every other non-empty
preference through unchanged. -/
theorem c10_sound_rules :
    soundArg none = "default"
    ∧ soundToPlay (soundArg none) = "default"
    ∧ soundToPlay "" = "default"
    ∧ (∀ p : String, jsTrim p = "" → soundToPlay p = "default")
    ∧ (∀ p : String, jsToLower p = "default" → soundToPlay p = "default")
    ∧ (∀ p : String, jsTrim p ≠ "" → jsToLower p ≠ "default" →
        soundToPlay p = p) := by
  refine ⟨rfl, by decide, by decide, ?_, ?_, ?_⟩
  · intro p hp
    exact if_neg (fun h => h.2.1 hp)
  · intro p hp
    exact if_neg (fun h => h.2.2 hp)
  · intro p h1 h2
    have h0 : p ≠ "" := by
      intro he
      rw [he] at h1
      exact h1 (by decide)
    exact if_pos ⟨h0, h1, h2⟩

/-- Witness for C10 at whitespace-only, case-variant and pass-through
preferences. -/
theorem c10_witness :
    (jsTrim "   " = "" ∧ soundToPlay "   " = "default")
    ∧ (jsToLower "DEFAULT" = "default" ∧ soundToPlay "DEFAULT" = "default")
    ∧ (jsTrim "chime.mp3" ≠ "" ∧ jsToLower "chime.mp3" ≠ "default"
        ∧ soundToPlay "chime.mp3" = "chime.mp3") :=
  ⟨⟨by decide, c10_sound_rules.2.2.2.1 "   " (by decide)⟩,
   ⟨by decide, c10_sound_rules.2.2.2.2.1 "DEFAULT" (by decide)⟩,
   ⟨by decide, by decide,
    c10_sound_rules.2.2.2.2.2 "chime.mp3" (by decide) (by decide)⟩⟩

end MedReminder
